import Mathlib

/-!
Shallow embedding of the corpus aggregation and normalization pipeline of
`nlp.py` (class `Text`): stop-word loading, the two document source parse
functions, the corpus store, the feature deriver and the complexity-heatmap
normalization.  External collaborators (pdfplumber page extraction, textstat
readability scoring, plotly rendering) are modelled as explicit parameters.
Machine integers are `Nat`, Python floats are `ℚ`, and fallible operations
(file reads, `ZeroDivisionError`, `TypeError`) return `Option`/`Except`.
-/

namespace Nlp

/-- Character codes of Python `string.punctuation`: the 32 ASCII characters
from code 33 to 126 that are neither letters nor digits. -/
def punctCodes : List Nat :=
  [33, 34, 35, 36, 37, 38, 39, 40, 41, 42, 43, 44, 45, 46, 47,
   58, 59, 60, 61, 62, 63, 64, 91, 92, 93, 94, 95, 96, 123, 124, 125, 126]

/-- Membership in `string.punctuation`. -/
def isPunct (c : Char) : Bool := punctCodes.contains c.toNat

/-- The ASCII whitespace characters recognised by Python `str.split()`
with no argument: tab, newline, vertical tab, form feed, carriage return,
space. -/
def pyIsSpace (c : Char) : Bool := [9, 10, 11, 12, 13, 32].contains c.toNat

/-- `str.lower()` (over the ASCII range, which is all the claims exercise). -/
def pyLower (s : String) : String := (s.toList.map Char.toLower).asString

/-- `raw.translate(str.maketrans('', '', string.punctuation))`: delete every
punctuation character from the text. -/
def stripPunct (s : String) : String :=
  (s.toList.filter (fun c => !(isPunct c))).asString

/-- Split a character stream at the separators chosen by `sep`, keeping
empty pieces. -/
def splitAtSep (sep : Char → Bool) : List Char → List Char → List String
  | [], acc => [acc.reverse.asString]
  | c :: cs, acc =>
      if sep c then acc.reverse.asString :: splitAtSep sep cs []
      else splitAtSep sep cs (c :: acc)

/-- `str.split()` with no argument: split on whitespace runs, producing no
empty pieces. -/
def pySplit (s : String) : List String :=
  (splitAtSep pyIsSpace s.toList []).filter (fun w => !(w == ""))

/-- `str.isalpha()`: non-empty and every character alphabetic. -/
def pyIsAlpha (s : String) : Bool := !(s.isEmpty) && s.toList.all Char.isAlpha

/-- The token pipeline shared by both source parse functions (nlp.py lines
71-78 and 53-58): lowercase the whole text, delete punctuation, split on
whitespace, and keep `[word for word in raw.split() if word.isalpha() and
word not in stop_words]`. -/
def normalizeTokens (raw : String) (stop_words : List String) : List String :=
  (pySplit (stripPunct (pyLower raw))).filter
    (fun w => pyIsAlpha w && !(stop_words.contains w))

/-- The distinct elements of a list in order of first occurrence: the key
order of a Python `Counter` (insertion-ordered dict). -/
def firstDedup {α : Type} [DecidableEq α] : List α → List α
  | [] => []
  | a :: l => a :: (firstDedup l).filter (fun x => decide (x ≠ a))

/-- `collections.Counter(words)` as an insertion-ordered association list
from element to number of occurrences. -/
def counter {α : Type} [DecidableEq α] (ws : List α) : List (α × Nat) :=
  (firstDedup ws).map (fun a => (a, ws.count a))

/-- The heterogeneous values stored in the corpus `self.data`. -/
inductive Value : Type where
  | counter : List (String × Nat) → Value
  | nat : Nat → Value
  | str : String → Value
  deriving DecidableEq

/-- The parse result of one document: the `results` dict each source parse
function returns (`num_pages` and `raw_text` only for paginated sources). -/
structure ParseResult where
  wordcount : List (String × Nat)
  num_words : Nat
  num_pages : Option Nat
  raw_text : Option String
  deriving DecidableEq

/-- Package a parse result as the literal `results` dict returned by the
source (nlp.py lines 65 and 83), with only the keys the parse produced. -/
def ParseResult.toResults (r : ParseResult) : List (String × Value) :=
  [("wordcount", Value.counter r.wordcount), ("num_words", Value.nat r.num_words)]
    ++ (match r.num_pages with | some n => [("num_pages", Value.nat n)] | none => [])
    ++ (match r.raw_text with | some t => [("raw_text", Value.str t)] | none => [])

/-- Body of `simple_text_parser` (nlp.py lines 69-83) as a function of the
file's contents: lowercase at read, strip punctuation, tokenize and filter,
then count. -/
def simple_text_parse (contents : String) (stop_words : List String) : ParseResult :=
  { wordcount := counter (normalizeTokens contents stop_words)
  , num_words := (normalizeTokens contents stop_words).length
  , num_pages := none
  , raw_text := none }

/-- The page-concatenation loop of `pdf_parser` (nlp.py lines 41-51): append
each page's extracted text plus a newline, skipping pages with no text. -/
def pdfConcat (pages : List (Option String)) : String :=
  pages.foldl (fun acc t => match t with | some txt => acc ++ txt ++ "\n" | none => acc) ""

/-- The `raw` text `pdf_parser` stores (nlp.py lines 53-55): the concatenated
page text, lowercased and punctuation-stripped, before token filtering. -/
def pdfRaw (pages : List (Option String)) : String := stripPunct (pyLower (pdfConcat pages))

/-- The surviving tokens of `pdf_parser` (nlp.py line 58). -/
def pdfTokens (pages : List (Option String)) (stop_words : List String) : List String :=
  (pySplit (pdfRaw pages)).filter (fun w => pyIsAlpha w && !(stop_words.contains w))

/-- Body of `pdf_parser` after stop-word loading and page extraction (nlp.py
lines 40-67); `pages` is the per-page `extract_text()` result, `none` for a
page with no extractable text. -/
def pdf_parse (pages : List (Option String)) (stop_words : List String) : ParseResult :=
  { wordcount := counter (pdfTokens pages stop_words)
  , num_words := (pdfTokens pages stop_words).length
  , num_pages := some pages.length
  , raw_text := some (pdfRaw pages) }

/-- A file system: maps a path to its text contents; `none` models a file
that cannot be opened (Python `IOError`). -/
def FS : Type := String → Option String

/-- `line.strip()`: drop leading and trailing whitespace. -/
def pyStrip (s : String) : String :=
  ((s.toList.dropWhile pyIsSpace).reverse.dropWhile pyIsSpace).reverse.asString

/-- `load_stop_words` (nlp.py lines 27-33): the non-empty, whitespace-trimmed
lines of the stop-word file. -/
def load_stop_words (fs : FS) (stopfile : String) : Except String (List String) :=
  match fs stopfile with
  | none => Except.error "IOError"
  | some contents =>
      Except.ok (((splitAtSep (fun c => c == '\n') contents.toList []).map pyStrip).filter
        (fun l => !(l == "")))

/-- `self.data`: statistic name to (document label to value), as the
insertion-ordered nested dictionaries of `defaultdict(dict)`. -/
def Corpus : Type := List (String × List (String × Value))

/-- Python dict lookup (`d[k]` on a present key / `d.get(k)`) on an
insertion-ordered association list. -/
def dictGet {α : Type} : List (String × α) → String → Option α
  | [], _ => none
  | (k, v) :: rest, key => if k = key then some v else dictGet rest key

/-- Python dict assignment `d[k] = v`: overwrite in place if the key exists,
otherwise append at the end. -/
def dictSet {α : Type} : List (String × α) → String → α → List (String × α)
  | [], key, v => [(key, v)]
  | (k, w) :: rest, key, v =>
      if k = key then (k, v) :: rest else (k, w) :: dictSet rest key v

/-- `self.data[stat].get(label)` — the per-document entry of one statistic. -/
def corpusGet (data : Corpus) (stat label : String) : Option Value :=
  dictGet ((dictGet data stat).getD []) label

/-- The corpus write loop of `load_text` (nlp.py lines 100-102):
`for k, v in results.items(): self.data[k][label] = v`, where `self.data[k]`
on a `defaultdict(dict)` creates an empty inner dict for a fresh statistic. -/
def storeResults (label : String) : Corpus → List (String × Value) → Corpus
  | data, [] => data
  | data, (k, v) :: rest =>
      storeResults label (dictSet data k (dictSet ((dictGet data k).getD []) label v)) rest

/-- The type of the `parser` argument of `load_text`, as `load_text` actually
calls it: `parser(filename, stop_words)`. -/
def ParserFun : Type := String → List String → Except String (List (String × Value))

/-- `load_text` (nlp.py lines 85-102).  When no parser is supplied, the
source runs `results = self.simple_text_parser(filename)` WITHOUT the
required `stop_words` argument, so Python raises `TypeError` at the call
site before any file is opened or any result is merged. -/
def load_text (fs : FS) (data : Corpus) (filename : String) (label : Option String)
    (stop_words : Option (List String)) (parserArg : Option ParserFun) :
    Except String Corpus := do
  let sw ← match stop_words with
    | none => load_stop_words fs "stop_words.txt"
    | some s => Except.ok s
  let results ← match parserArg with
    | none => (Except.error "TypeError" : Except String (List (String × Value)))
    | some p => p filename sw
  Except.ok (storeResults (label.getD filename) data results)

/-- Stable insert for descending-count order: the new entry goes after every
entry with a strictly larger count and before entries with an equal or
smaller count. -/
def insertByCountDesc (p : String × Nat) : List (String × Nat) → List (String × Nat)
  | [] => [p]
  | q :: rest => if p.2 < q.2 then q :: insertByCountDesc p rest else p :: q :: rest

/-- Stable sort by count, descending: the order `Counter.most_common` uses
(highest count first, ties in first-encountered order). -/
def sortByCountDesc (l : List (String × Nat)) : List (String × Nat) :=
  l.foldr insertByCountDesc []

/-- `Counter.most_common(k)`: the `k` highest-count entries. -/
def most_common (wc : List (String × Nat)) (k : Nat) : List (String × Nat) :=
  (sortByCountDesc wc).take k

/-- The per-document top-word selection of `wordcount_sankey` (nlp.py line
114): `[word for word, _ in wordcount.most_common(k)]`. -/
def wordcount_sankey_top_words (wc : List (String × Nat)) (k : Nat) : List String :=
  (most_common wc k).map Prod.fst

/-- The output dict of `get_features` (nlp.py lines 259-263). -/
structure FeaturesOut where
  word_count : Option Value
  grade_level : ℚ
  polysyllable_count : Nat
  deriving DecidableEq

/-- `get_features` (nlp.py lines 253-263).  `g` and `p` model the textstat
collaborators `flesch_kincaid_grade` and `polysyllabcount`.  Note that the
source passes its argument `text` — the document label used for the
`wordcount` lookup — straight to both collaborators. -/
def get_features (g : String → ℚ) (p : String → Nat) (data : Corpus) (text : String) :
    FeaturesOut :=
  { word_count := dictGet ((dictGet data "wordcount").getD []) text
  , grade_level := g text
  , polysyllable_count := p text }

/-- Division as Python performs it: a zero divisor raises
`ZeroDivisionError`, modelled as `none`. -/
def pydiv (a b : ℚ) : Option ℚ := if b = 0 then none else some (a / b)

/-- Python `max` over a list; the source only applies it to non-empty lists
(the accumulated rows after at least one append). -/
def maxQ : List ℚ → ℚ
  | [] => 0
  | x :: xs => xs.foldl max x

/-- Effectful map over a list in the `Option` monad: `none` as soon as one
element fails.  Used to model a Python loop or comprehension whose body can
raise. -/
def mapMOpt {α β : Type} (f : α → Option β) : List α → Option (List β)
  | [] => some []
  | a :: l => do
      let b ← f a
      let bs ← mapMOpt f l
      pure (b :: bs)

/-- One execution of the normalization block of `complexity_heatmap` (nlp.py
lines 282-290) on the rows accumulated so far: divide each of the three
columns (word count, polysyllable count, grade) by that column's maximum. -/
def normalizeStep (rows : List (ℚ × ℚ × ℚ)) : Option (List (ℚ × ℚ × ℚ)) :=
  mapMOpt (fun t => do
      let a ← pydiv t.1 (maxQ (rows.map (fun r => r.1)))
      let b ← pydiv t.2.1 (maxQ (rows.map (fun r => r.2.1)))
      let c ← pydiv t.2.2 (maxQ (rows.map (fun r => r.2.2)))
      pure (a, b, c)) rows

/-- The document loop of `complexity_heatmap` (nlp.py lines 272-290).  The
normalization block sits INSIDE the loop, so it runs once per visited
document over the rows gathered so far; only the last assignment of
`normalized_data` survives, and an uncaught fault in any iteration aborts
the call.  If the loop never runs, `normalized_data` is unbound and line 292
raises `NameError`; both failure modes are modelled as `none`. -/
def heatmapLoop : List (ℚ × ℚ × ℚ) → List (ℚ × ℚ × ℚ) → Option (List (ℚ × ℚ × ℚ))
  | [], _ => none
  | t :: rest, acc =>
    match normalizeStep (acc ++ [t]), rest with
    | none, _ => none
    | some norm, [] => some norm
    | some _, r :: rs => heatmapLoop (r :: rs) (acc ++ [t])

/-- `' '.join(items)`. -/
def joinSpace : List String → String
  | [] => ""
  | [w] => w
  | w :: ws => w ++ " " ++ joinSpace ws

/-- `' '.join(self.data['wordcount'][label].keys())` (nlp.py line 273): the
document's distinct words, space-joined, in first-occurrence order. -/
def joinedKeys (wc : List (String × Nat)) : String :=
  joinSpace (wc.map Prod.fst)

/-- The labels `complexity_heatmap` visits (nlp.py line 272):
`list(self.data['wordcount'].keys())[:k]`. -/
def complexity_heatmap_labels (data : Corpus) (k : Nat) : List String :=
  (((dictGet data "wordcount").getD []).map Prod.fst).take k

/-- The feature row `complexity_heatmap` builds for one label (nlp.py lines
273-279): `[num_words, polysyllable_count, grade]`, with the readability
collaborators applied to the space-joined distinct words.  A label whose
stored statistics are missing or of the wrong runtime type makes the Python
loop fail (`TypeError`/`AttributeError`); modelled as `none`. -/
def heatmapRow (g : String → ℚ) (p : String → Nat) (data : Corpus) (label : String) :
    Option (ℚ × ℚ × ℚ) := do
  let v ← dictGet ((dictGet data "wordcount").getD []) label
  match v with
  | Value.counter wc =>
    match corpusGet data "num_words" label with
    | some (Value.nat nw) =>
        some ((nw : ℚ), ((p (joinedKeys wc) : Nat) : ℚ), g (joinedKeys wc))
    | _ => none
  | _ => none

/-- The data-gathering and normalization portion of `complexity_heatmap`
(nlp.py lines 265-292), up to the `np.array` call; the rendering below it is
an external collaborator. -/
def complexity_heatmap_data (g : String → ℚ) (p : String → Nat) (data : Corpus)
    (k : Nat) : Option (List (ℚ × ℚ × ℚ)) := do
  let rows ← mapMOpt (heatmapRow g p data) (complexity_heatmap_labels data k)
  heatmapLoop rows []

/-! ### Lemmas about `firstDedup` and `counter` -/

theorem mem_firstDedup {α : Type} [DecidableEq α] (a : α) (l : List α) :
    a ∈ firstDedup l ↔ a ∈ l := by
  induction l with
  | nil => simp [firstDedup]
  | cons b l ih =>
    by_cases hab : a = b
    · subst hab; simp [firstDedup]
    · simp [firstDedup, List.mem_filter, hab, ih]

theorem nodup_firstDedup {α : Type} [DecidableEq α] (l : List α) :
    (firstDedup l).Nodup := by
  induction l with
  | nil => simp [firstDedup]
  | cons b l ih =>
    refine List.nodup_cons.2 ⟨fun hmem => ?_, ih.filter _⟩
    have h2 := (List.mem_filter.1 hmem).2
    simp at h2

theorem counter_sum {α : Type} [DecidableEq α] (ws : List α) :
    ((counter ws).map Prod.snd).sum = ws.length := by
  have hperm : List.Perm (firstDedup ws) ws.dedup :=
    (List.perm_ext_iff_of_nodup (nodup_firstDedup ws) ws.nodup_dedup).2
      (fun a => by rw [mem_firstDedup, List.mem_dedup])
  have h2 : ((firstDedup ws).map (fun a => ws.count a)).sum
      = ((ws.dedup).map (fun a => ws.count a)).sum := (hperm.map _).sum_eq
  have h3 : ((counter ws).map Prod.snd).sum
      = ((firstDedup ws).map (fun a => ws.count a)).sum := by
    simp [counter, List.map_map, Function.comp_def]
  rw [h3, h2, List.sum_map_count_dedup_eq_length]

theorem counter_keys {α : Type} [DecidableEq α] (ws : List α) :
    (counter ws).map Prod.fst = firstDedup ws := by
  simp [counter, List.map_map, Function.comp_def]

theorem counter_count_pos {α : Type} [DecidableEq α] (ws : List α) (q : α × Nat)
    (hq : q ∈ counter ws) : 1 ≤ q.2 := by
  obtain ⟨a, ha, rfl⟩ := List.mem_map.1 hq
  exact List.count_pos_iff.2 ((mem_firstDedup a ws).1 ha)

/-! ### Claim theorems -/

/-- Claim C1: for every document parsed by either the plain-text or the
paginated parse function, the counts in the returned `wordcount` map sum to
the returned `num_words` value. -/
theorem wordcount_sum_eq_num_words :
    (∀ (contents : String) (stop_words : List String),
        ((simple_text_parse contents stop_words).wordcount.map Prod.snd).sum
          = (simple_text_parse contents stop_words).num_words)
    ∧ ∀ (pages : List (Option String)) (stop_words : List String),
        ((pdf_parse pages stop_words).wordcount.map Prod.snd).sum
          = (pdf_parse pages stop_words).num_words := by
  constructor
  · intro contents stop_words
    exact counter_sum (normalizeTokens contents stop_words)
  · intro pages stop_words
    exact counter_sum (pdfTokens pages stop_words)

/-- Claim C10: for every document parsed by either parse function, every
entry of the returned `wordcount` map has count at least 1, and its keys are
exactly (without duplicates) the distinct tokens that survived filtering. -/
theorem wordcount_keys_distinct_and_positive :
    (∀ (contents : String) (stop_words : List String),
        (∀ q ∈ (simple_text_parse contents stop_words).wordcount, 1 ≤ q.2)
        ∧ ((simple_text_parse contents stop_words).wordcount.map Prod.fst).Nodup
        ∧ ∀ w, w ∈ (simple_text_parse contents stop_words).wordcount.map Prod.fst
            ↔ w ∈ normalizeTokens contents stop_words)
    ∧ ∀ (pages : List (Option String)) (stop_words : List String),
        (∀ q ∈ (pdf_parse pages stop_words).wordcount, 1 ≤ q.2)
        ∧ ((pdf_parse pages stop_words).wordcount.map Prod.fst).Nodup
        ∧ ∀ w, w ∈ (pdf_parse pages stop_words).wordcount.map Prod.fst
            ↔ w ∈ pdfTokens pages stop_words := by
  constructor
  · intro contents stop_words
    refine ⟨fun q hq => counter_count_pos _ q hq, ?_, fun w => ?_⟩
    · rw [show (simple_text_parse contents stop_words).wordcount
          = counter (normalizeTokens contents stop_words) from rfl, counter_keys]
      exact nodup_firstDedup _
    · rw [show (simple_text_parse contents stop_words).wordcount
          = counter (normalizeTokens contents stop_words) from rfl, counter_keys]
      exact mem_firstDedup _ _
  · intro pages stop_words
    refine ⟨fun q hq => counter_count_pos _ q hq, ?_, fun w => ?_⟩
    · rw [show (pdf_parse pages stop_words).wordcount
          = counter (pdfTokens pages stop_words) from rfl, counter_keys]
      exact nodup_firstDedup _
    · rw [show (pdf_parse pages stop_words).wordcount
          = counter (pdfTokens pages stop_words) from rfl, counter_keys]
      exact mem_firstDedup _ _

/-- Claim C10 witness: the theorem applied at a concrete parse, discharging
the membership hypothesis of its first conjunct. -/
theorem wordcount_keys_distinct_and_positive_witness :
    1 ≤ (("cat", 1) : String × Nat).2 :=
  (wordcount_keys_distinct_and_positive.1 "cat dog" []).1 ("cat", 1) (by decide)

theorem dictGet_dictSet_self {α : Type} (d : List (String × α)) (key : String) (v : α) :
    dictGet (dictSet d key v) key = some v := by
  induction d with
  | nil => simp [dictSet, dictGet]
  | cons p rest ih =>
    obtain ⟨k, w⟩ := p
    by_cases h : k = key
    · simp [dictSet, dictGet, h]
    · simp [dictSet, dictGet, h, ih]

theorem dictGet_dictSet_ne {α : Type} (d : List (String × α)) (key key' : String)
    (v : α) (h : key' ≠ key) : dictGet (dictSet d key v) key' = dictGet d key' := by
  have h2 : key ≠ key' := fun hh => h hh.symm
  induction d with
  | nil => simp [dictSet, dictGet, h2]
  | cons p rest ih =>
    obtain ⟨k, w⟩ := p
    by_cases hk : k = key
    · subst hk
      simp [dictSet, dictGet, h2]
    · simp [dictSet, dictGet, hk, ih]

theorem storeResults_stat_untouched (label : String) (data : Corpus)
    (results : List (String × Value)) (stat : String)
    (h : stat ∉ results.map Prod.fst) :
    dictGet (storeResults label data results) stat = dictGet data stat := by
  induction results generalizing data with
  | nil => rfl
  | cons kv rest ih =>
    obtain ⟨s, v⟩ := kv
    simp only [List.map_cons, List.mem_cons, not_or] at h
    show dictGet (storeResults label
      (dictSet data s (dictSet ((dictGet data s).getD []) label v)) rest) stat
      = dictGet data stat
    rw [ih _ h.2, dictGet_dictSet_ne _ _ _ _ h.1]

theorem storeResults_other_label (label : String) (data : Corpus)
    (results : List (String × Value)) (l : String) (hl : l ≠ label) (stat : String) :
    corpusGet (storeResults label data results) stat l = corpusGet data stat l := by
  induction results generalizing data with
  | nil => rfl
  | cons kv rest ih =>
    obtain ⟨s, v⟩ := kv
    show corpusGet (storeResults label
      (dictSet data s (dictSet ((dictGet data s).getD []) label v)) rest) stat l
      = corpusGet data stat l
    rw [ih]
    by_cases hs : s = stat
    · subst hs
      unfold corpusGet
      rw [dictGet_dictSet_self]
      simp only [Option.getD_some]
      rw [dictGet_dictSet_ne _ _ _ _ hl]
    · unfold corpusGet
      rw [dictGet_dictSet_ne _ _ _ _ (fun hh => hs hh.symm)]

theorem storeResults_own_label (label : String) (data : Corpus)
    (results : List (String × Value)) (stat : String) (v : Value)
    (hnodup : (results.map Prod.fst).Nodup) (hmem : (stat, v) ∈ results) :
    corpusGet (storeResults label data results) stat label = some v := by
  induction results generalizing data with
  | nil => cases hmem
  | cons kv rest ih =>
    obtain ⟨s, w⟩ := kv
    simp only [List.map_cons, List.nodup_cons] at hnodup
    rcases List.mem_cons.1 hmem with heq | htail
    · injection heq with h1 h2
      subst h1
      subst h2
      show corpusGet (storeResults label
        (dictSet data stat (dictSet ((dictGet data stat).getD []) label v)) rest) stat label
        = some v
      unfold corpusGet
      rw [storeResults_stat_untouched label _ rest stat hnodup.1,
        dictGet_dictSet_self]
      simp only [Option.getD_some]
      exact dictGet_dictSet_self _ _ _
    · exact ih _ hnodup.2 htail

/-- Claim C6: registering results under a label overwrites that label's
entry for every statistic produced by the new parse, and every other label's
entry under every statistic is unchanged (for any prior corpus state, in
particular when the label is already in use). -/
theorem storeResults_overwrites_label_frames_others (data : Corpus) (label : String)
    (results : List (String × Value)) (hnodup : (results.map Prod.fst).Nodup) :
    (∀ stat v, (stat, v) ∈ results →
        corpusGet (storeResults label data results) stat label = some v)
    ∧ ∀ l, l ≠ label → ∀ stat,
        corpusGet (storeResults label data results) stat l = corpusGet data stat l :=
  ⟨fun stat v hmem => storeResults_own_label label data results stat v hnodup hmem,
   fun l hl stat => storeResults_other_label label data results l hl stat⟩

/-- Claim C6 witness: a corpus already holding statistics for labels "old"
and "other" is re-registered under "old"; the theorem yields the new value
for "old" and the untouched value for "other". -/
theorem storeResults_overwrites_label_frames_others_witness :
    corpusGet (storeResults "old"
        [("wordcount", [("old", Value.counter [("dog", 2)]), ("other", Value.counter [("cat", 1)])]),
         ("num_words", [("old", Value.nat 2), ("other", Value.nat 1)])]
        [("wordcount", Value.counter [("bird", 3)]), ("num_words", Value.nat 3)])
      "wordcount" "old" = some (Value.counter [("bird", 3)])
    ∧ corpusGet (storeResults "old"
        [("wordcount", [("old", Value.counter [("dog", 2)]), ("other", Value.counter [("cat", 1)])]),
         ("num_words", [("old", Value.nat 2), ("other", Value.nat 1)])]
        [("wordcount", Value.counter [("bird", 3)]), ("num_words", Value.nat 3)])
      "num_words" "other"
      = corpusGet
        [("wordcount", [("old", Value.counter [("dog", 2)]), ("other", Value.counter [("cat", 1)])]),
         ("num_words", [("old", Value.nat 2), ("other", Value.nat 1)])] "num_words" "other" :=
  ⟨(storeResults_overwrites_label_frames_others _ "old" _ (by decide)).1
      "wordcount" (Value.counter [("bird", 3)]) (by decide),
   (storeResults_overwrites_label_frames_others _ "old" _ (by decide)).2
      "other" (by decide) "num_words"⟩

theorem insertByCountDesc_perm (p : String × Nat) (l : List (String × Nat)) :
    List.Perm (insertByCountDesc p l) (p :: l) := by
  induction l with
  | nil => exact List.Perm.refl _
  | cons q rest ih =>
    by_cases h : p.2 < q.2
    · simp only [insertByCountDesc, if_pos h]
      exact (ih.cons q).trans (List.Perm.swap p q rest)
    · simp only [insertByCountDesc, if_neg h]
      exact List.Perm.refl _

theorem sortByCountDesc_perm (l : List (String × Nat)) :
    List.Perm (sortByCountDesc l) l := by
  induction l with
  | nil => exact List.Perm.refl _
  | cons p rest ih =>
    exact (insertByCountDesc_perm p (sortByCountDesc rest)).trans (ih.cons p)

/-- Claim C8: when `k` is at least the number of available items, the top-k
selections do not fail and use all available items: the sankey adapter's
per-document word selection returns the whole vocabulary, and the complexity
heatmap's `[:k]` document slice returns every registered label. -/
theorem top_k_with_large_k_uses_all_items (wc : List (String × Nat)) (k : Nat)
    (data : Corpus) (h1 : wc.length ≤ k)
    (h2 : ((dictGet data "wordcount").getD []).length ≤ k) :
    ((wordcount_sankey_top_words wc k).length = wc.length
      ∧ ∀ w, w ∈ wordcount_sankey_top_words wc k ↔ w ∈ wc.map Prod.fst)
    ∧ complexity_heatmap_labels data k
        = ((dictGet data "wordcount").getD []).map Prod.fst := by
  have hlen : (sortByCountDesc wc).length = wc.length :=
    (sortByCountDesc_perm wc).length_eq
  have htake : most_common wc k = sortByCountDesc wc :=
    List.take_of_length_le (hlen ▸ h1)
  refine ⟨⟨?_, fun w => ?_⟩, ?_⟩
  · rw [wordcount_sankey_top_words, htake, List.length_map, hlen]
  · rw [wordcount_sankey_top_words, htake]
    exact ((sortByCountDesc_perm wc).map Prod.fst).mem_iff
  · rw [complexity_heatmap_labels]
    exact List.take_of_length_le (by rw [List.length_map]; exact h2)

/-- Claim C8 witness: a three-word vocabulary and a one-document corpus with
`k = 10`. -/
theorem top_k_with_large_k_uses_all_items_witness :
    (([("a", 1), ("b", 3), ("c", 2)] : List (String × Nat)).length ≤ 10
      ∧ (((dictGet ([("wordcount", [("doc", Value.counter [("a", 1)])])] : Corpus)
            "wordcount").getD []).length ≤ 10))
    ∧ ((wordcount_sankey_top_words [("a", 1), ("b", 3), ("c", 2)] 10).length
          = ([("a", 1), ("b", 3), ("c", 2)] : List (String × Nat)).length
        ∧ ∀ w, w ∈ wordcount_sankey_top_words [("a", 1), ("b", 3), ("c", 2)] 10
            ↔ w ∈ ([("a", 1), ("b", 3), ("c", 2)] : List (String × Nat)).map Prod.fst)
    ∧ complexity_heatmap_labels [("wordcount", [("doc", Value.counter [("a", 1)])])] 10
        = ((dictGet ([("wordcount", [("doc", Value.counter [("a", 1)])])] : Corpus)
            "wordcount").getD []).map Prod.fst :=
  ⟨⟨by decide, by decide⟩,
    (top_k_with_large_k_uses_all_items [("a", 1), ("b", 3), ("c", 2)] 10
      [("wordcount", [("doc", Value.counter [("a", 1)])])] (by decide) (by decide)).1,
    (top_k_with_large_k_uses_all_items [("a", 1), ("b", 3), ("c", 2)] 10
      [("wordcount", [("doc", Value.counter [("a", 1)])])] (by decide) (by decide)).2⟩

/-- Claim C2 (code bug): the normalization of `complexity_heatmap` is NOT
guarded against a zero column maximum.  Failing input: a batch of one
registered document "d" with words ["cat"] whose polysyllable count is 0
(grade 5, word count 1).  The polysyllable column's maximum is 0, the
division raises `ZeroDivisionError` (result `none`), and no all-zero column
is produced. -/
theorem complexity_heatmap_zero_max_faults :
    complexity_heatmap_data (fun _ => (5 : ℚ)) (fun _ => 0)
      (storeResults "d" [] (simple_text_parse "cat" []).toResults) 10 = none := by
  decide

/-- Claim C3 counterexample: a batch consisting of exactly one registered
document — label "d2", loaded from empty text, so `num_words = 0` and every
feature is 0 — does not normalize to 1.0 in every dimension: the unguarded
division by the zero maxima raises `ZeroDivisionError` (result `none`). -/
theorem single_document_normalization_counterexample :
    complexity_heatmap_data (fun s => (s.length : ℚ)) (fun s => s.length)
        (storeResults "d2" [] (simple_text_parse "" []).toResults) 10 = none
    ∧ complexity_heatmap_data (fun s => (s.length : ℚ)) (fun s => s.length)
        (storeResults "d2" [] (simple_text_parse "" []).toResults) 10
      ≠ some [(1, 1, 1)] :=
  ⟨by decide, by decide⟩

/-- Claim C3 amended: a batch consisting of exactly one registered document
whose three feature values (word count, polysyllable count of the joined
distinct words, grade level of the joined distinct words) are all non-zero
normalizes to 1.0 in every feature dimension. -/
theorem single_document_normalization_yields_one (g : String → ℚ) (p : String → Nat)
    (data : Corpus) (k : Nat) (label : String) (wc : List (String × Nat)) (nw : Nat)
    (hwc : (dictGet data "wordcount").getD [] = [(label, Value.counter wc)])
    (hk : 1 ≤ k)
    (hnw : corpusGet data "num_words" label = some (Value.nat nw))
    (h1 : nw ≠ 0) (h2 : p (joinedKeys wc) ≠ 0) (h3 : g (joinedKeys wc) ≠ 0) :
    complexity_heatmap_data g p data k = some [(1, 1, 1)] := by
  have hq1 : ((nw : ℚ)) ≠ 0 := Nat.cast_ne_zero.2 h1
  have hq2 : (((p (joinedKeys wc) : Nat) : ℚ)) ≠ 0 := Nat.cast_ne_zero.2 h2
  have hlab : complexity_heatmap_labels data k = [label] := by
    rw [complexity_heatmap_labels, hwc]
    exact List.take_of_length_le (by simpa using hk)
  have hrow : heatmapRow g p data label
      = some ((nw : ℚ), ((p (joinedKeys wc) : Nat) : ℚ), g (joinedKeys wc)) := by
    rw [heatmapRow, hwc]
    simp [dictGet, hnw]
  rw [complexity_heatmap_data, hlab]
  simp [mapMOpt, hrow, heatmapLoop, normalizeStep, maxQ, pydiv, hq1, hq2, h3, div_self]

/-- Claim C3 witness: the amended theorem at a one-document corpus with word
"zebra", `num_words = 1` and length-valued scorers. -/
theorem single_document_normalization_yields_one_witness :
    ((dictGet ([("wordcount", [("d3", Value.counter [("zebra", 1)])]),
          ("num_words", [("d3", Value.nat 1)])] : Corpus) "wordcount").getD []
        = [("d3", Value.counter [("zebra", 1)])]
      ∧ (1 : Nat) ≤ 1
      ∧ corpusGet [("wordcount", [("d3", Value.counter [("zebra", 1)])]),
          ("num_words", [("d3", Value.nat 1)])] "num_words" "d3" = some (Value.nat 1)
      ∧ (1 : Nat) ≠ 0
      ∧ (fun s => s.length) (joinedKeys [("zebra", 1)]) ≠ 0
      ∧ (fun s => (s.length : ℚ)) (joinedKeys [("zebra", 1)]) ≠ 0)
    ∧ complexity_heatmap_data (fun s => (s.length : ℚ)) (fun s => s.length)
        [("wordcount", [("d3", Value.counter [("zebra", 1)])]),
         ("num_words", [("d3", Value.nat 1)])] 1 = some [(1, 1, 1)] :=
  ⟨⟨by decide, by decide, by decide, by decide, by decide, by decide⟩,
    single_document_normalization_yields_one (fun s => (s.length : ℚ)) (fun s => s.length)
      [("wordcount", [("d3", Value.counter [("zebra", 1)])]),
       ("num_words", [("d3", Value.nat 1)])] 1 "d3" [("zebra", 1)] 1
      (by decide) (by decide) (by decide) (by decide) (by decide) (by decide)⟩

/-- Claim C4 (code bug): whenever `load_text` is called without a parser,
the source runs `self.simple_text_parser(filename)` with the required
`stop_words` argument missing, so the call raises `TypeError`; the
plain-text parse never runs and nothing is merged into the corpus —
regardless of file system, corpus state, filename, label or supplied
stop-word set. -/
theorem load_text_default_path_raises (fs : FS) (data : Corpus) (filename : String)
    (label : Option String) (sw : List String) :
    load_text fs data filename label (some sw) none = Except.error "TypeError" := rfl

/-- Claim C5 counterexample: requesting features for the unregistered label
"ghost" (here on an empty corpus) does NOT fail with an unknown-document
signal; `get_features` returns a silently degraded record whose word count
is `None` and whose readability numbers are computed from the label string
"ghost" itself (here scorers returning the text length show this: 5). -/
theorem get_features_unknown_label_counterexample :
    get_features (fun s => (s.length : ℚ)) (fun s => s.length) [] "ghost"
      = { word_count := none, grade_level := 5, polysyllable_count := 5 } := by
  decide

/-- Claim C5 amended: requesting features for a label with no `wordcount`
entry does not fail; it returns a record with `word_count = None` and the
two readability collaborators applied to the label string (a silently
degraded result, not an "unknown document" error). -/
theorem get_features_unknown_label (g : String → ℚ) (p : String → Nat)
    (data : Corpus) (label : String)
    (h : dictGet ((dictGet data "wordcount").getD []) label = none) :
    get_features g p data label
      = { word_count := none, grade_level := g label, polysyllable_count := p label } := by
  rw [get_features, h]

/-- Claim C5 witness: the amended theorem at an empty corpus and constant
scorers. -/
theorem get_features_unknown_label_witness :
    dictGet ((dictGet ([] : Corpus) "wordcount").getD []) "gh" = none
    ∧ get_features (fun _ => (0 : ℚ)) (fun _ => 0) [] "gh"
        = { word_count := none, grade_level := 0, polysyllable_count := 0 } :=
  ⟨rfl, get_features_unknown_label (fun _ => (0 : ℚ)) (fun _ => 0) [] "gh" rfl⟩

/-- Claim C9 counterexample: for the registered label "d9" (document text
"the cat", so the distinct-words reconstruction is "the cat" and no raw
text is stored), `get_features` computes the readability features from the
label string "d9" itself — with length-valued scorers the grade level is 2,
not the reconstruction's 7 — so the collaborators are invoked on a string
that is neither the reconstruction nor stored raw text. -/
theorem get_features_not_on_reconstruction_counterexample :
    (get_features (fun s => (s.length : ℚ)) (fun s => s.length)
        (storeResults "d9" [] (simple_text_parse "the cat" []).toResults) "d9").grade_level
      = (fun s => (s.length : ℚ)) "d9"
    ∧ (get_features (fun s => (s.length : ℚ)) (fun s => s.length)
        (storeResults "d9" [] (simple_text_parse "the cat" []).toResults) "d9").grade_level
      ≠ (fun s => (s.length : ℚ)) (joinedKeys [("the", 1), ("cat", 1)])
    ∧ corpusGet (storeResults "d9" [] (simple_text_parse "the cat" []).toResults)
        "wordcount" "d9" = some (Value.counter [("the", 1), ("cat", 1)])
    ∧ corpusGet (storeResults "d9" [] (simple_text_parse "the cat" []).toResults)
        "raw_text" "d9" = none := by
  refine ⟨by decide, by decide, by decide, by decide⟩

/-- Claim C9 amended: for every registered label, `get_features` returns the
stored wordcount map, but computes grade level and polysyllable count by
invoking the two readability collaborators on the label string itself (not
on the joined distinct words or on stored raw text). -/
theorem get_features_uses_label_string (g : String → ℚ) (p : String → Nat)
    (data : Corpus) (label : String) (wc : List (String × Nat))
    (h : dictGet ((dictGet data "wordcount").getD []) label
      = some (Value.counter wc)) :
    (get_features g p data label).word_count = some (Value.counter wc)
    ∧ (get_features g p data label).grade_level = g label
    ∧ (get_features g p data label).polysyllable_count = p label := by
  rw [get_features, h]
  exact ⟨rfl, rfl, rfl⟩

/-- Claim C9 witness: the amended theorem at a one-document corpus. -/
theorem get_features_uses_label_string_witness :
    dictGet ((dictGet ([("wordcount", [("w9", Value.counter [("sun", 2)])])] : Corpus)
        "wordcount").getD []) "w9" = some (Value.counter [("sun", 2)])
    ∧ ((get_features (fun _ => (3 : ℚ)) (fun _ => 4)
          [("wordcount", [("w9", Value.counter [("sun", 2)])])] "w9").word_count
        = some (Value.counter [("sun", 2)])
      ∧ (get_features (fun _ => (3 : ℚ)) (fun _ => 4)
          [("wordcount", [("w9", Value.counter [("sun", 2)])])] "w9").grade_level = 3
      ∧ (get_features (fun _ => (3 : ℚ)) (fun _ => 4)
          [("wordcount", [("w9", Value.counter [("sun", 2)])])] "w9").polysyllable_count = 4) :=
  ⟨by decide,
    get_features_uses_label_string (fun _ => (3 : ℚ)) (fun _ => 4)
      [("wordcount", [("w9", Value.counter [("sun", 2)])])] "w9" [("sun", 2)] (by decide)⟩

/-- Claim C7: the normalizer keeps, of the whitespace-split pieces of the
lowercased, punctuation-stripped text, exactly the purely alphabetic tokens
not in the stop-word set; on input "Hello, World! 123" with an empty
stop-word set it yields tokens ["hello", "world"] and `num_words = 2`. -/
theorem normalizer_filter_and_example :
    (∀ (raw : String) (stop_words : List String) (w : String),
        w ∈ normalizeTokens raw stop_words
          ↔ w ∈ pySplit (stripPunct (pyLower raw))
              ∧ pyIsAlpha w = true ∧ w ∉ stop_words)
    ∧ normalizeTokens "Hello, World! 123" [] = ["hello", "world"]
    ∧ (simple_text_parse "Hello, World! 123" []).num_words = 2 := by
  refine ⟨fun raw stop_words w => ?_, by decide, by decide⟩
  simp [normalizeTokens, List.mem_filter, and_assoc]

end Nlp
